import Mathlib

/-!
Shallow embedding of the antiSnore server (`server_improve_fixed.py`).

The embedding models the pieces of the system the verified properties talk
about: the shared status dictionary (`ThreadSafeData._system_status`), the
GPIO controller (`GPIOController.control_pump` / `control_valve`), the
detection history buffer, the model-type detection, the snoring-response
trigger decision of `record_and_predict`, the response sequence
`_execute_snoring_response` (with the stop-event checks made explicit), the
auto-detection start/stop controls, and an interleaving model of the
check-then-spawn race around the `snoring_response_active` flag.

Machine effects are made explicit: hardware writes become a trace of
`HWWrite` events, thread spawns and joins become counted effects, and the
stop event becomes a monotone cancellation point.
-/

/-- Configuration constants from `SystemConfig`. -/
def PUMP_RELAY_PIN : Nat := 17

def PUMP_RELAY_PIN_2 : Nat := 27

def SOLENOID_VALVE_PIN_1 : Nat := 23

def SOLENOID_VALVE_PIN_2 : Nat := 24

def PUMP1_DURATION : Nat := 50

def WAIT_BETWEEN_PUMPS : Nat := 60

def PUMP2_DURATION : Nat := 20

def MAX_DETECTION_HISTORY : Nat := 50

/-- `SystemConfig.CONFIDENCE_THRESHOLD = 0.85`, modelled as a rational. -/
def CONFIDENCE_THRESHOLD : Rat := 85 / 100

/-- Upper-casing of a Python `str.upper()` call on the ASCII action strings
used by the controller, written structurally so it evaluates in the kernel. -/
def py_upper (s : String) : String := String.mk (s.data.map Char.toUpper)

/-- Lower-casing of a Python `str.lower()` call, as `py_upper`. -/
def py_lower (s : String) : String := String.mk (s.data.map Char.toLower)

/-- The `_system_status` dictionary of `ThreadSafeData`. -/
structure SystemStatus where
  is_recording : Bool
  pump_status : Bool
  auto_detect_enabled : Bool
  detection_delay : Int
  model_loaded : Bool
  gpio_ready : Bool
  snoring_response_active : Bool
deriving DecidableEq, Repr

/-- Initial `_system_status` as built in `ThreadSafeData.__init__`. -/
def init_status : SystemStatus :=
  { is_recording := false
    pump_status := false
    auto_detect_enabled := false
    detection_delay := 5
    model_loaded := false
    gpio_ready := false
    snoring_response_active := false }

/-- Hardware state of the GPIO controller: whether `lgpio` initialisation
succeeded (`gpio_initialized`), and the level of each claimed output pin. -/
structure GPIOState where
  gpio_ok : Bool
  pump1 : Bool
  pump2 : Bool
  valve1 : Bool
  valve2 : Bool
deriving DecidableEq, Repr

/-- State shared between the GPIO controller and the data store. -/
structure SysState where
  gpio : GPIOState
  status : SystemStatus
deriving DecidableEq, Repr

/-- A `{"success": ..., "message": ...}` result dictionary. -/
structure CallResult where
  success : Bool
  message : String
deriving DecidableEq, Repr

/-- One hardware-level effect: an `lgpio.gpio_write` or a `time.sleep`. -/
inductive HWWrite where
  | write (pin : Nat) (level : Nat)
  | sleepMs (ms : Nat)
deriving DecidableEq, Repr

/-- Write the pump relay of a channel (`lgpio.gpio_write(h, pump_pin, v)`). -/
def write_pump_pin (g : GPIOState) (ch : Int) (v : Bool) : GPIOState :=
  if ch = 1 then { g with pump1 := v } else { g with pump2 := v }

/-- Write the solenoid valve of a channel. -/
def write_valve_pin (g : GPIOState) (ch : Int) (v : Bool) : GPIOState :=
  if ch = 1 then { g with valve1 := v } else { g with valve2 := v }

/-- Body of `GPIOController.control_pump` after pin selection: branch on the
action, write valve then pump (ON) or pump then valve (OFF) with a 100 ms
settle sleep in between, update `pump_status` for channel 1 only. -/
def control_pump_channel (s : SysState) (ch : Int) (pump_pin valve_pin : Nat)
    (action : String) : CallResult × SysState × List HWWrite :=
  if py_upper action = "ON" then
    let g := write_pump_pin (write_valve_pin s.gpio ch true) ch true
    let st := if ch = 1 then { s.status with pump_status := true } else s.status
    (⟨true, "Pump " ++ toString ch ++ " and Valve " ++ toString ch ++ " " ++
        py_lower action ++ " successful"⟩,
      ⟨g, st⟩,
      [HWWrite.write valve_pin 1, HWWrite.sleepMs 100, HWWrite.write pump_pin 1])
  else
    let g := write_valve_pin (write_pump_pin s.gpio ch false) ch false
    let st := if ch = 1 then { s.status with pump_status := false } else s.status
    (⟨true, "Pump " ++ toString ch ++ " and Valve " ++ toString ch ++ " " ++
        py_lower action ++ " successful"⟩,
      ⟨g, st⟩,
      [HWWrite.write pump_pin 0, HWWrite.sleepMs 100, HWWrite.write valve_pin 0])

/-- `GPIOController.control_pump` when no hardware write raises:
degraded-mode guard, channel validation, then the ON/OFF write sequence.
The returned list is the trace of hardware effects the call performed, in
order.  The method's `except` clause (a write raising after earlier writes
took effect) is modelled by `control_pump_exc`, of which this function is
the no-fault slice (`control_pump_exc_noFault`). -/
def control_pump (s : SysState) (pin_number : Int) (action : String) :
    CallResult × SysState × List HWWrite :=
  if s.gpio.gpio_ok = false then
    (⟨false, "GPIO not available"⟩, s, [])
  else if pin_number = 1 then
    control_pump_channel s 1 PUMP_RELAY_PIN SOLENOID_VALVE_PIN_1 action
  else if pin_number = 2 then
    control_pump_channel s 2 PUMP_RELAY_PIN_2 SOLENOID_VALVE_PIN_2 action
  else
    (⟨false, "Invalid pump number (must be 1 or 2)"⟩, s, [])

/-- `GPIOController.control_valve`: degraded-mode guard, valve validation,
then a single valve write; the system status is untouched. -/
def control_valve (s : SysState) (valve_number : Int) (action : String) :
    CallResult × SysState × List HWWrite :=
  if s.gpio.gpio_ok = false then
    (⟨false, "GPIO not available"⟩, s, [])
  else if valve_number = 1 then
    if py_upper action = "ON" then
      (⟨true, "Valve 1 " ++ py_lower action ++ " successful"⟩,
        ⟨{ s.gpio with valve1 := true }, s.status⟩,
        [HWWrite.write SOLENOID_VALVE_PIN_1 1])
    else
      (⟨true, "Valve 1 " ++ py_lower action ++ " successful"⟩,
        ⟨{ s.gpio with valve1 := false }, s.status⟩,
        [HWWrite.write SOLENOID_VALVE_PIN_1 0])
  else if valve_number = 2 then
    if py_upper action = "ON" then
      (⟨true, "Valve 2 " ++ py_lower action ++ " successful"⟩,
        ⟨{ s.gpio with valve2 := true }, s.status⟩,
        [HWWrite.write SOLENOID_VALVE_PIN_2 1])
    else
      (⟨true, "Valve 2 " ++ py_lower action ++ " successful"⟩,
        ⟨{ s.gpio with valve2 := false }, s.status⟩,
        [HWWrite.write SOLENOID_VALVE_PIN_2 0])
  else
    (⟨false, "Invalid valve number (must be 1 or 2)"⟩, s, [])

/-- A boot-time system state: GPIO initialisation outcome `ok`, all output
pins at their claimed level 0, fresh status dictionary. -/
def boot_state (ok : Bool) : SysState :=
  ⟨⟨ok, false, false, false, false⟩, init_status⟩

/-- The literal action `"ON"` upper-cases to itself. -/
theorem py_upper_ON : py_upper "ON" = "ON" := by decide

/-- The literal action `"OFF"` does not upper-case to `"ON"`. -/
theorem py_upper_OFF_ne : ¬ py_upper "OFF" = "ON" := by decide

/-- C3: for a valid engage call on channel 1 or 2 with the hardware driver
initialised, the ON trace is exactly valve-open, 100 ms settle, pump-on, and
the OFF trace is exactly pump-off, 100 ms settle, valve-close. -/
theorem control_pump_hw_order (s : SysState) (hok : s.gpio.gpio_ok = true) :
    (control_pump s 1 "ON").2.2 =
      [HWWrite.write SOLENOID_VALVE_PIN_1 1, HWWrite.sleepMs 100,
        HWWrite.write PUMP_RELAY_PIN 1] ∧
    (control_pump s 1 "OFF").2.2 =
      [HWWrite.write PUMP_RELAY_PIN 0, HWWrite.sleepMs 100,
        HWWrite.write SOLENOID_VALVE_PIN_1 0] ∧
    (control_pump s 2 "ON").2.2 =
      [HWWrite.write SOLENOID_VALVE_PIN_2 1, HWWrite.sleepMs 100,
        HWWrite.write PUMP_RELAY_PIN_2 1] ∧
    (control_pump s 2 "OFF").2.2 =
      [HWWrite.write PUMP_RELAY_PIN_2 0, HWWrite.sleepMs 100,
        HWWrite.write SOLENOID_VALVE_PIN_2 0] := by
  refine ⟨?_, ?_, ?_, ?_⟩ <;>
    simp [control_pump, control_pump_channel, hok, py_upper_ON, py_upper_OFF_ne]

/-- Witness for `control_pump_hw_order` at the all-zero boot state. -/
theorem control_pump_hw_order_witness :
    (control_pump (boot_state true) 1 "ON").2.2 =
      [HWWrite.write SOLENOID_VALVE_PIN_1 1, HWWrite.sleepMs 100,
        HWWrite.write PUMP_RELAY_PIN 1] :=
  (control_pump_hw_order (boot_state true) rfl).1

/-- C4: `control_pump` is a total function (the embedding of a method that
catches every exception): an invalid channel id returns a failure result
with no hardware write and no state change, and whenever the hardware
driver failed to initialise every call returns an explicit failure result
with no hardware write and no state change. -/
theorem control_pump_total_safe (s : SysState) (ch : Int) (action : String) :
    (ch ≠ 1 → ch ≠ 2 →
      (control_pump s ch action).1.success = false ∧
      (control_pump s ch action).2.1 = s ∧
      (control_pump s ch action).2.2 = []) ∧
    (s.gpio.gpio_ok = false →
      (control_pump s ch action).1.success = false ∧
      (control_pump s ch action).2.1 = s ∧
      (control_pump s ch action).2.2 = []) := by
  constructor
  · intro h1 h2
    by_cases hok : s.gpio.gpio_ok = false
    · simp [control_pump, hok]
    · simp [control_pump, hok, h1, h2]
  · intro hok
    simp [control_pump, hok]

/-- Witness for `control_pump_total_safe`: channel 3 is rejected without a
hardware write, and a degraded controller fails every call. -/
theorem control_pump_total_safe_witness :
    ((control_pump (boot_state true) 3 "ON").1.success = false ∧
      (control_pump (boot_state true) 3 "ON").2.1 = boot_state true ∧
      (control_pump (boot_state true) 3 "ON").2.2 = []) ∧
    ((control_pump (boot_state false) 1 "ON").1.success = false ∧
      (control_pump (boot_state false) 1 "ON").2.1 = boot_state false ∧
      (control_pump (boot_state false) 1 "ON").2.2 = []) :=
  ⟨(control_pump_total_safe (boot_state true) 3 "ON").1 (by decide) (by decide),
    (control_pump_total_safe (boot_state false) 1 "ON").2 rfl⟩

/-- C10: `pump_status` mirrors channel 1 only: a successful channel-1 ON
sets it, a successful channel-1 OFF clears it, and any channel-2 pump call
or any valve call leaves it unchanged whatever its prior value. -/
theorem pump_status_frame (s : SysState) (action : String) :
    ((control_pump s 1 "ON").1.success = true →
      (control_pump s 1 "ON").2.1.status.pump_status = true) ∧
    ((control_pump s 1 "OFF").1.success = true →
      (control_pump s 1 "OFF").2.1.status.pump_status = false) ∧
    ((control_pump s 2 action).2.1.status.pump_status = s.status.pump_status) ∧
    (∀ n : Int, (control_valve s n action).2.1.status.pump_status =
      s.status.pump_status) := by
  refine ⟨?_, ?_, ?_, ?_⟩
  · intro hs
    by_cases hok : s.gpio.gpio_ok = false
    · simp [control_pump, hok] at hs
    · simp [control_pump, control_pump_channel, hok, py_upper_ON]
  · intro hs
    by_cases hok : s.gpio.gpio_ok = false
    · simp [control_pump, hok] at hs
    · simp [control_pump, control_pump_channel, hok, py_upper_OFF_ne]
  · by_cases hok : s.gpio.gpio_ok = false
    · simp [control_pump, hok]
    · by_cases ha : py_upper action = "ON" <;>
        simp [control_pump, control_pump_channel, hok, ha]
  · intro n
    by_cases hok : s.gpio.gpio_ok = false
    · simp [control_valve, hok]
    · by_cases h1 : n = 1
      · by_cases ha : py_upper action = "ON" <;>
          simp [control_valve, hok, h1, ha]
      · by_cases h2 : n = 2
        · by_cases ha : py_upper action = "ON" <;>
            simp [control_valve, hok, h1, h2, ha]
        · simp [control_valve, hok, h1, h2]

/-- Witness for `pump_status_frame`: on a live controller, channel-1 ON
raises `pump_status` from its boot value. -/
theorem pump_status_frame_witness :
    (control_pump (boot_state true) 1 "ON").2.1.status.pump_status = true :=
  (pump_status_frame (boot_state true) "ON").1 (by decide)

/-- `ModelHandler._detect_model_type`, applied to the declared input shape of
the loaded model (a tuple whose batch dimension is `None`): rank 2 with 40
features selects the legacy MFCC model, rank 2 with any other feature count
yields `"unknown"`, rank 3 selects the improved model, and any other rank
falls back to legacy. -/
def detect_model_type (input_shape : List (Option Nat)) : String :=
  if input_shape.length = 2 then
    if input_shape.getD 1 none = some 40 then "legacy" else "unknown"
  else if input_shape.length = 3 then "improved"
  else "legacy"

/-- C5 counterexample: the claim says every shape other than `(batch, 40)`
and a 3-dimensional one defaults to `"legacy"`, but a rank-2 shape with 39
features is classified `"unknown"`. -/
theorem detect_model_type_not_always_legacy :
    detect_model_type [none, some 39] = "unknown" ∧
    ("unknown" : String) ≠ "legacy" := by
  constructor
  · rfl
  · decide

/-- C5 amended: `(batch, 40)` selects legacy, a rank-2 shape with any other
feature count yields `"unknown"`, a rank-3 shape selects improved, and any
other rank defaults to legacy. -/
theorem detect_model_type_spec (shape : List (Option Nat)) :
    (shape.length = 2 → shape.getD 1 none = some 40 →
      detect_model_type shape = "legacy") ∧
    (shape.length = 2 → shape.getD 1 none ≠ some 40 →
      detect_model_type shape = "unknown") ∧
    (shape.length = 3 → detect_model_type shape = "improved") ∧
    (shape.length ≠ 2 → shape.length ≠ 3 → detect_model_type shape = "legacy") := by
  refine ⟨?_, ?_, ?_, ?_⟩
  · intro h2 h40
    unfold detect_model_type
    rw [if_pos h2, if_pos h40]
  · intro h2 h40
    unfold detect_model_type
    rw [if_pos h2, if_neg h40]
  · intro h3
    have h2 : shape.length ≠ 2 := by omega
    unfold detect_model_type
    rw [if_neg h2, if_pos h3]
  · intro h2 h3
    unfold detect_model_type
    rw [if_neg h2, if_neg h3]

/-- Witness for `detect_model_type_spec` on the four shape classes. -/
theorem detect_model_type_spec_witness :
    detect_model_type [none, some 40] = "legacy" ∧
    detect_model_type [none, some 39] = "unknown" ∧
    detect_model_type [none, some 12, some 128] = "improved" ∧
    detect_model_type [none] = "legacy" :=
  ⟨(detect_model_type_spec [none, some 40]).1 rfl rfl,
    (detect_model_type_spec [none, some 39]).2.1 rfl (by decide),
    (detect_model_type_spec [none, some 12, some 128]).2.2.1 rfl,
    (detect_model_type_spec [none]).2.2.2 (by decide) (by decide)⟩

/-- The positive-label set checked by `record_and_predict`:
`["กรน", "snoring", "Snoring", "SNORING"]`. -/
def snoring_class_names : List String := ["กรน", "snoring", "Snoring", "SNORING"]

/-- `is_snoring = result["class_name"] in [...]` in `record_and_predict`. -/
def is_snoring_label (class_name : String) : Bool :=
  snoring_class_names.contains class_name

/-- The trigger decision of `record_and_predict`: spawn the response thread
exactly when the label is a snoring label, the confidence (in percent)
strictly exceeds `CONFIDENCE_THRESHOLD * 100`, and no response sequence is
already marked active in the status dictionary. -/
def triggers_snoring_response (class_name : String) (confidence : Rat)
    (already_active : Bool) : Bool :=
  let is_snoring := is_snoring_label class_name
  let confidence_above_threshold := decide (confidence > CONFIDENCE_THRESHOLD * 100)
  if is_snoring && confidence_above_threshold then
    if already_active then false else true
  else false

/-- C6: with no sequence already active, the response is spawned exactly for
a positive label with confidence strictly above the threshold-as-percentage;
the configured threshold is 85 percent, a positive detection at 90 triggers,
at 80 it does not, and a non-positive label never triggers. -/
theorem record_and_predict_trigger_spec :
    (∀ (name : String) (conf : Rat),
      triggers_snoring_response name conf false =
        (is_snoring_label name && decide (conf > 85))) ∧
    CONFIDENCE_THRESHOLD * 100 = 85 ∧
    triggers_snoring_response "snoring" 90 false = true ∧
    triggers_snoring_response "snoring" 80 false = false ∧
    (∀ (conf : Rat) (active : Bool),
      triggers_snoring_response "negative" conf active = false) := by
  have hth : CONFIDENCE_THRESHOLD * 100 = 85 := by
    norm_num [CONFIDENCE_THRESHOLD]
  have hchar : ∀ (name : String) (conf : Rat),
      triggers_snoring_response name conf false =
        (is_snoring_label name && decide (conf > 85)) := by
    intro name conf
    by_cases hs : is_snoring_label name = true <;>
      by_cases hc : conf > 85 <;>
        simp [triggers_snoring_response, hth, hs, hc]
  refine ⟨hchar, hth, ?_, ?_, ?_⟩
  · rw [hchar]
    have h1 : is_snoring_label "snoring" = true := by decide
    have h2 : (90 : Rat) > 85 := by norm_num
    simp [h1, h2]
  · rw [hchar]
    have h2 : ¬ (80 : Rat) > 85 := by norm_num
    simp [h2]
  · intro conf active
    have hn : is_snoring_label "negative" = false := by decide
    simp [triggers_snoring_response, hn]

/-- `SnoreDetectionSystem.set_detection_delay`: validate `1 <= delay <= 60`,
reject out-of-range values with no status change, otherwise store the value
in the status dictionary. -/
def set_detection_delay (st : SystemStatus) (delay_minutes : Int) :
    CallResult × SystemStatus :=
  if ¬ (1 ≤ delay_minutes ∧ delay_minutes ≤ 60) then
    (⟨false, "Delay must be between 1 and 60 minutes"⟩, st)
  else
    (⟨true, "Detection delay set to " ++ toString delay_minutes ++ " minutes"⟩,
      { st with detection_delay := delay_minutes })

/-- C7: `set_detection_delay` accepts exactly 1..60: outside that range it
fails and leaves the whole status dictionary unchanged (no clamping), inside
it succeeds and stores exactly the requested value, all other fields kept. -/
theorem set_detection_delay_spec (st : SystemStatus) (d : Int) :
    (¬ (1 ≤ d ∧ d ≤ 60) →
      (set_detection_delay st d).1.success = false ∧
      (set_detection_delay st d).2 = st) ∧
    (1 ≤ d ∧ d ≤ 60 →
      (set_detection_delay st d).1.success = true ∧
      (set_detection_delay st d).2 = { st with detection_delay := d }) := by
  constructor
  · intro h
    simp [set_detection_delay, h]
  · intro h
    simp [set_detection_delay, h]

/-- Witness for `set_detection_delay_spec`: 0 and 61 are rejected with the
status intact, 1 and 60 are accepted and stored. -/
theorem set_detection_delay_spec_witness :
    ((set_detection_delay init_status 0).1.success = false ∧
      (set_detection_delay init_status 0).2 = init_status) ∧
    ((set_detection_delay init_status 61).1.success = false ∧
      (set_detection_delay init_status 61).2 = init_status) ∧
    ((set_detection_delay init_status 1).1.success = true ∧
      (set_detection_delay init_status 1).2 =
        { init_status with detection_delay := 1 }) ∧
    ((set_detection_delay init_status 60).1.success = true ∧
      (set_detection_delay init_status 60).2 =
        { init_status with detection_delay := 60 }) :=
  ⟨(set_detection_delay_spec init_status 0).1 (by decide),
    (set_detection_delay_spec init_status 61).1 (by decide),
    (set_detection_delay_spec init_status 1).2 (by decide),
    (set_detection_delay_spec init_status 60).2 (by decide)⟩

/-- `ThreadSafeData.add_detection_record`: append the record, then drop the
oldest entry when the length exceeds `MAX_DETECTION_HISTORY` (`list.pop(0)`). -/
def add_detection_record {α : Type} (history : List α) (record : α) : List α :=
  let h := history ++ [record]
  if h.length > MAX_DETECTION_HISTORY then h.drop 1 else h

/-- Defining equation of `add_detection_record` with the `let` inlined. -/
theorem add_detection_record_eq {α : Type} (l : List α) (r : α) :
    add_detection_record l r =
      if (l ++ [r]).length > MAX_DETECTION_HISTORY
      then (l ++ [r]).drop 1 else l ++ [r] := rfl

/-- Folding `add_detection_record` over at most 50 records from a short
enough accumulator never evicts: it is plain concatenation. -/
theorem foldl_add_detection_record_small {α : Type} :
    ∀ (rs acc : List α), acc.length + rs.length ≤ 50 →
      List.foldl add_detection_record acc rs = acc ++ rs := by
  intro rs
  induction rs with
  | nil =>
    intro acc _
    simp
  | cons r rest ih =>
    intro acc hlen
    simp only [List.length_cons] at hlen
    have hbig : ¬ (acc ++ [r]).length > MAX_DETECTION_HISTORY := by
      simp only [List.length_append, List.length_singleton, MAX_DETECTION_HISTORY]
      omega
    have hstep : add_detection_record acc r = acc ++ [r] := by
      rw [add_detection_record_eq, if_neg hbig]
    have hrec : (acc ++ [r]).length + rest.length ≤ 50 := by
      simp only [List.length_append, List.length_singleton]
      omega
    calc List.foldl add_detection_record acc (r :: rest)
        = List.foldl add_detection_record (acc ++ [r]) rest := by
          rw [List.foldl_cons, hstep]
      _ = (acc ++ [r]) ++ rest := ih (acc ++ [r]) hrec
      _ = acc ++ (r :: rest) := by simp

/-- C8: the detection history is a 50-capacity FIFO: appending keeps the
length at most 50, below capacity it is a plain append, at capacity the
oldest record is evicted, and appending 51 records to an empty history
leaves exactly the last 50 (the first-appended record evicted). -/
theorem detection_history_fifo {α : Type} (l : List α) (r : α) (rs : List α) :
    (l.length ≤ 50 → (add_detection_record l r).length ≤ 50) ∧
    (l.length < 50 → add_detection_record l r = l ++ [r]) ∧
    (l.length = 50 → add_detection_record l r = l.drop 1 ++ [r]) ∧
    (rs.length = 51 →
      List.foldl add_detection_record ([] : List α) rs = rs.drop 1 ∧
      (List.foldl add_detection_record ([] : List α) rs).length = 50) := by
  refine ⟨?_, ?_, ?_, ?_⟩
  · intro hle
    rw [add_detection_record_eq]
    by_cases hbig : (l ++ [r]).length > MAX_DETECTION_HISTORY
    · rw [if_pos hbig]
      simp only [List.length_drop, List.length_append, List.length_singleton]
      omega
    · rw [if_neg hbig]
      simp only [List.length_append, List.length_singleton,
        MAX_DETECTION_HISTORY] at hbig ⊢
      omega
  · intro hlt
    have hbig : ¬ (l ++ [r]).length > MAX_DETECTION_HISTORY := by
      simp only [List.length_append, List.length_singleton, MAX_DETECTION_HISTORY]
      omega
    rw [add_detection_record_eq, if_neg hbig]
  · intro heq
    have hbig : (l ++ [r]).length > MAX_DETECTION_HISTORY := by
      simp only [List.length_append, List.length_singleton, MAX_DETECTION_HISTORY]
      omega
    rw [add_detection_record_eq, if_pos hbig,
      List.drop_append_of_le_length (by omega)]
  · intro h51
    rcases List.eq_nil_or_concat rs with hnil | ⟨front, last, hsplit⟩
    · rw [hnil] at h51
      simp at h51
    · rw [List.concat_eq_append] at hsplit
      have hfront : front.length = 50 := by
        rw [hsplit] at h51
        simp at h51
        omega
      have hfold : List.foldl add_detection_record ([] : List α) front = front :=
        foldl_add_detection_record_small front [] (by simp [hfront])
      have hlast : List.foldl add_detection_record ([] : List α) rs =
          add_detection_record front last := by
        rw [hsplit, List.foldl_append, hfold]
        rfl
      have hbig : (front ++ [last]).length > MAX_DETECTION_HISTORY := by
        simp [MAX_DETECTION_HISTORY, hfront]
      constructor
      · rw [hlast, add_detection_record_eq, if_pos hbig, hsplit]
      · rw [hlast, add_detection_record_eq, if_pos hbig]
        simp [hfront]

/-- Witness for `detection_history_fifo`: at capacity the oldest record is
evicted, and 51 appends to an empty history leave exactly the last 50. -/
theorem detection_history_fifo_witness :
    add_detection_record (List.range 50) 99 = (List.range 50).drop 1 ++ [99] ∧
    (List.foldl add_detection_record ([] : List Nat) (List.range 51) =
        (List.range 51).drop 1 ∧
      (List.foldl add_detection_record ([] : List Nat) (List.range 51)).length = 50) :=
  ⟨(detection_history_fifo (List.range 50) 99 (List.range 51)).2.2.1 (by simp),
    (detection_history_fifo (List.range 50) 99 (List.range 51)).2.2.2 (by simp)⟩

/-- Control state of the auto-detection supervisor: whether the loop thread
object exists and is alive, the stop event, and the status dictionary. -/
structure AutoDetectCtl where
  thread_alive : Bool
  stop_event : Bool
  status : SystemStatus
deriving DecidableEq, Repr

/-- Effects of `start_auto_detection`: its result, the control state after
the call, and how many loop threads the call spawned. -/
structure StartEffect where
  result : CallResult
  ctl : AutoDetectCtl
  threads_spawned : Nat
deriving DecidableEq, Repr

/-- Effects of `stop_auto_detection`: its result, the control state after
the call, and the timeout of the `join` it performed, if any. -/
structure StopEffect where
  result : CallResult
  ctl : AutoDetectCtl
  join_timeout : Option Nat
deriving DecidableEq, Repr

/-- `SnoreDetectionSystem.start_auto_detection`: refuse when a loop thread
is alive, otherwise enable the flag, clear the stop event and spawn the
loop thread. -/
def start_auto_detection (c : AutoDetectCtl) : StartEffect :=
  if c.thread_alive then
    ⟨⟨false, "Auto detection already running"⟩, c, 0⟩
  else
    ⟨⟨true, "Auto detection started"⟩,
      { thread_alive := true
        stop_event := false
        status := { c.status with auto_detect_enabled := true } }, 1⟩

/-- `SnoreDetectionSystem.stop_auto_detection`: clear the enabled flag, set
the stop event, and join the loop thread with a 5 second timeout when one
is alive; always report success. -/
def stop_auto_detection (c : AutoDetectCtl) : StopEffect :=
  let c1 : AutoDetectCtl :=
    { thread_alive := c.thread_alive
      stop_event := true
      status := { c.status with auto_detect_enabled := false } }
  if c1.thread_alive then
    ⟨⟨true, "Auto detection stopped"⟩, c1, some 5⟩
  else
    ⟨⟨true, "Auto detection stopped"⟩, c1, none⟩

/-- Whether the second character list starts the first. -/
def chars_start_with : List Char → List Char → Bool
  | _, [] => true
  | [], _ :: _ => false
  | c :: cs, d :: ds => (c = d) && chars_start_with cs ds

/-- Whether the second character list occurs inside the first. -/
def chars_contain : List Char → List Char → Bool
  | [], needle => needle.isEmpty
  | c :: cs, needle => chars_start_with (c :: cs) needle || chars_contain cs needle

/-- Substring occurrence on strings, written structurally so it evaluates
in the kernel. -/
def contains_substring (s needle : String) : Bool :=
  chars_contain s.data needle.data

/-- C9: `start_auto_detection` while a loop thread is alive fails with a
message containing "already running", spawns no second loop thread, and
changes nothing; `stop_auto_detection` on a non-running loop still succeeds
(a no-op on the thread, with no join), and every stop call signals the stop
event, clears the enabled flag, reports success, and any join it performs
uses a timeout of 5 seconds. -/
theorem auto_detection_start_stop_spec (c : AutoDetectCtl) :
    (c.thread_alive = true →
      (start_auto_detection c).result.success = false ∧
      contains_substring (start_auto_detection c).result.message
        "already running" = true ∧
      (start_auto_detection c).threads_spawned = 0 ∧
      (start_auto_detection c).ctl = c) ∧
    (c.thread_alive = false →
      (stop_auto_detection c).result.success = true ∧
      (stop_auto_detection c).join_timeout = none) ∧
    ((stop_auto_detection c).result.success = true ∧
      (stop_auto_detection c).ctl.stop_event = true ∧
      (stop_auto_detection c).ctl.status.auto_detect_enabled = false) ∧
    (∀ t : Nat, (stop_auto_detection c).join_timeout = some t → t = 5) := by
  refine ⟨?_, ?_, ?_, ?_⟩
  · intro halive
    refine ⟨?_, ?_, ?_, ?_⟩ <;> simp [start_auto_detection, halive]
    decide
  · intro hdead
    constructor <;> simp [stop_auto_detection, hdead]
  · by_cases halive : c.thread_alive = true <;>
      simp [stop_auto_detection, halive]
  · intro t
    by_cases halive : c.thread_alive = true <;>
      simp [stop_auto_detection, halive]
    omega

/-- Witness for `auto_detection_start_stop_spec`: start on a running
supervisor fails without spawning, stop on an idle one is a successful
no-op. -/
theorem auto_detection_start_stop_witness :
    ((start_auto_detection ⟨true, false, init_status⟩).result.success = false ∧
      contains_substring
        (start_auto_detection ⟨true, false, init_status⟩).result.message
        "already running" = true ∧
      (start_auto_detection ⟨true, false, init_status⟩).threads_spawned = 0 ∧
      (start_auto_detection ⟨true, false, init_status⟩).ctl =
        ⟨true, false, init_status⟩) ∧
    ((stop_auto_detection ⟨false, false, init_status⟩).result.success = true ∧
      (stop_auto_detection ⟨false, false, init_status⟩).join_timeout = none) :=
  ⟨(auto_detection_start_stop_spec ⟨true, false, init_status⟩).1 rfl,
    (auto_detection_start_stop_spec ⟨false, false, init_status⟩).2.1 rfl⟩

/-- The `_auto_detection_stop_event`, as seen from inside the response
sequence: the event is monotone, so a run is summarised by the index of the
first per-second check at which `is_set()` returns true (`none` if never). -/
def stop_event_is_set (cancelAt : Option Nat) (i : Nat) : Bool :=
  match cancelAt with
  | none => false
  | some k => k ≤ i

/-- One pump hold of `_execute_snoring_response`: `n` one-second waits, each
preceded by a stop-event check; on cancellation the held channel is turned
OFF and the loop reports the interruption.  Returns the interruption flag,
the state, and the next check index. -/
def pump_hold_loop (cancelAt : Option Nat) (ch : Int) :
    Nat → Nat → SysState → Bool × SysState × Nat
  | 0, idx, s => (false, s, idx)
  | n + 1, idx, s =>
    if stop_event_is_set cancelAt idx then
      (true, (control_pump s ch "OFF").2.1, idx + 1)
    else
      pump_hold_loop cancelAt ch n (idx + 1) s

/-- The between-pumps waiting loop of `_execute_snoring_response`: as the
hold loop, but cancellation returns without touching any channel. -/
def wait_loop (cancelAt : Option Nat) :
    Nat → Nat → SysState → Bool × SysState × Nat
  | 0, idx, s => (false, s, idx)
  | n + 1, idx, s =>
    if stop_event_is_set cancelAt idx then
      (true, s, idx + 1)
    else
      wait_loop cancelAt n (idx + 1) s

/-- `update_status(snoring_response_active=b)`. -/
def set_response_active (s : SysState) (b : Bool) : SysState :=
  { s with status := { s.status with snoring_response_active := b } }

/-- The try-block of `SnoreDetectionSystem._execute_snoring_response`:
engage channel 1 for `PUMP1_DURATION` seconds (aborting on stage failure,
turning channel 1 off on cancellation), disengage it, wait
`WAIT_BETWEEN_PUMPS` seconds, then engage channel 2 for `PUMP2_DURATION`
seconds likewise. -/
def response_body (cancelAt : Option Nat) (s1 : SysState) : SysState :=
  let p1 := control_pump s1 1 "ON"
  if p1.1.success then
    let h1 := pump_hold_loop cancelAt 1 PUMP1_DURATION 0 p1.2.1
    if h1.1 then h1.2.1
    else
      let off1 := control_pump h1.2.1 1 "OFF"
      let w := wait_loop cancelAt WAIT_BETWEEN_PUMPS h1.2.2 off1.2.1
      if w.1 then w.2.1
      else
        let p2 := control_pump w.2.1 2 "ON"
        if p2.1.success then
          let h2 := pump_hold_loop cancelAt 2 PUMP2_DURATION w.2.2 p2.2.1
          if h2.1 then h2.2.1
          else (control_pump h2.2.1 2 "OFF").2.1
        else p2.2.1
  else p1.2.1

/-- `_execute_snoring_response` itself: mark the sequence active, run the
try-block body, and clear the flag in the `finally` clause. -/
def execute_snoring_response (cancelAt : Option Nat) (s0 : SysState) : SysState :=
  set_response_active (response_body cancelAt (set_response_active s0 true)) false

/-- Both pump relays de-energised and both solenoid valves closed. -/
def actuators_off (s : SysState) : Prop :=
  s.gpio.pump1 = false ∧ s.gpio.pump2 = false ∧
  s.gpio.valve1 = false ∧ s.gpio.valve2 = false

/-- A hold loop either completes without touching the state or is cancelled
and returns the state after turning its channel OFF. -/
theorem pump_hold_loop_cases (cancelAt : Option Nat) (ch : Int) :
    ∀ (n idx : Nat) (s : SysState),
      ((pump_hold_loop cancelAt ch n idx s).1 = false ∧
        (pump_hold_loop cancelAt ch n idx s).2.1 = s) ∨
      ((pump_hold_loop cancelAt ch n idx s).1 = true ∧
        (pump_hold_loop cancelAt ch n idx s).2.1 =
          (control_pump s ch "OFF").2.1) := by
  intro n
  induction n with
  | zero =>
    intro idx s
    left
    exact ⟨rfl, rfl⟩
  | succ k ih =>
    intro idx s
    by_cases hc : stop_event_is_set cancelAt idx = true
    · right
      constructor <;> simp [pump_hold_loop, hc]
    · have hc2 : stop_event_is_set cancelAt idx = false := by
        revert hc
        cases stop_event_is_set cancelAt idx <;> simp
      have hstep : pump_hold_loop cancelAt ch (k + 1) idx s =
          pump_hold_loop cancelAt ch k (idx + 1) s := by
        simp [pump_hold_loop, hc2]
      rw [hstep]
      exact ih (idx + 1) s

/-- The waiting loop never changes the state. -/
theorem wait_loop_state (cancelAt : Option Nat) :
    ∀ (n idx : Nat) (s : SysState), (wait_loop cancelAt n idx s).2.1 = s := by
  intro n
  induction n with
  | zero =>
    intro idx s
    rfl
  | succ k ih =>
    intro idx s
    by_cases hc : stop_event_is_set cancelAt idx = true
    · simp [wait_loop, hc]
    · have hc2 : stop_event_is_set cancelAt idx = false := by
        revert hc
        cases stop_event_is_set cancelAt idx <;> simp
      simp [wait_loop, hc2]
      exact ih (idx + 1) s

/-- A degraded controller makes every pump call a stateless failure. -/
theorem cp_gpio_down (s : SysState) (ch : Int) (a : String)
    (hok : s.gpio.gpio_ok = false) :
    control_pump s ch a = (⟨false, "GPIO not available"⟩, s, []) := by
  simp [control_pump, hok]

/-- Hardware effect of `control_pump s 1 "ON"` on a live controller. -/
theorem cp1_on (s : SysState) (hok : s.gpio.gpio_ok = true) :
    (control_pump s 1 "ON").1.success = true ∧
    (control_pump s 1 "ON").2.1.gpio.gpio_ok = true ∧
    (control_pump s 1 "ON").2.1.gpio.pump1 = true ∧
    (control_pump s 1 "ON").2.1.gpio.valve1 = true ∧
    (control_pump s 1 "ON").2.1.gpio.pump2 = s.gpio.pump2 ∧
    (control_pump s 1 "ON").2.1.gpio.valve2 = s.gpio.valve2 := by
  refine ⟨?_, ?_, ?_, ?_, ?_, ?_⟩ <;>
    simp [control_pump, control_pump_channel, write_pump_pin, write_valve_pin,
      py_upper_ON, hok]

/-- Hardware effect of `control_pump s 1 "OFF"` on a live controller. -/
theorem cp1_off (s : SysState) (hok : s.gpio.gpio_ok = true) :
    (control_pump s 1 "OFF").1.success = true ∧
    (control_pump s 1 "OFF").2.1.gpio.gpio_ok = true ∧
    (control_pump s 1 "OFF").2.1.gpio.pump1 = false ∧
    (control_pump s 1 "OFF").2.1.gpio.valve1 = false ∧
    (control_pump s 1 "OFF").2.1.gpio.pump2 = s.gpio.pump2 ∧
    (control_pump s 1 "OFF").2.1.gpio.valve2 = s.gpio.valve2 := by
  refine ⟨?_, ?_, ?_, ?_, ?_, ?_⟩ <;>
    simp [control_pump, control_pump_channel, write_pump_pin, write_valve_pin,
      py_upper_OFF_ne, hok]

/-- Hardware effect of `control_pump s 2 "ON"` on a live controller. -/
theorem cp2_on (s : SysState) (hok : s.gpio.gpio_ok = true) :
    (control_pump s 2 "ON").1.success = true ∧
    (control_pump s 2 "ON").2.1.gpio.gpio_ok = true ∧
    (control_pump s 2 "ON").2.1.gpio.pump2 = true ∧
    (control_pump s 2 "ON").2.1.gpio.valve2 = true ∧
    (control_pump s 2 "ON").2.1.gpio.pump1 = s.gpio.pump1 ∧
    (control_pump s 2 "ON").2.1.gpio.valve1 = s.gpio.valve1 := by
  refine ⟨?_, ?_, ?_, ?_, ?_, ?_⟩ <;>
    simp [control_pump, control_pump_channel, write_pump_pin, write_valve_pin,
      py_upper_ON, hok]

/-- Hardware effect of `control_pump s 2 "OFF"` on a live controller. -/
theorem cp2_off (s : SysState) (hok : s.gpio.gpio_ok = true) :
    (control_pump s 2 "OFF").1.success = true ∧
    (control_pump s 2 "OFF").2.1.gpio.gpio_ok = true ∧
    (control_pump s 2 "OFF").2.1.gpio.pump2 = false ∧
    (control_pump s 2 "OFF").2.1.gpio.valve2 = false ∧
    (control_pump s 2 "OFF").2.1.gpio.pump1 = s.gpio.pump1 ∧
    (control_pump s 2 "OFF").2.1.gpio.valve1 = s.gpio.valve1 := by
  refine ⟨?_, ?_, ?_, ?_, ?_, ?_⟩ <;>
    simp [control_pump, control_pump_channel, write_pump_pin, write_valve_pin,
      py_upper_OFF_ne, hok]

/-- The try-block leaves both channels fully disengaged on every exit path,
whatever the cancellation schedule and whether the driver initialised. -/
theorem response_body_safe (cancelAt : Option Nat) (s1 : SysState)
    (h : actuators_off s1) : actuators_off (response_body cancelAt s1) := by
  obtain ⟨hp1, hp2, hv1, hv2⟩ := h
  by_cases hok : s1.gpio.gpio_ok = true
  · -- live controller
    obtain ⟨hs1, ho1, hpa, hva, hpb, hvb⟩ := cp1_on s1 hok
    unfold response_body
    simp only [hs1, if_true]
    rcases pump_hold_loop_cases cancelAt 1 PUMP1_DURATION 0
        ((control_pump s1 1 "ON").2.1) with ⟨hI, hS⟩ | ⟨hI, hS⟩
    · -- hold 1 ran to completion
      simp only [hI, hS, Bool.false_eq_true, if_false]
      obtain ⟨_, ho2, hpa2, hva2, hpb2, hvb2⟩ :=
        cp1_off ((control_pump s1 1 "ON").2.1) ho1
      rw [wait_loop_state]
      by_cases hw : (wait_loop cancelAt WAIT_BETWEEN_PUMPS
          (pump_hold_loop cancelAt 1 PUMP1_DURATION 0
            ((control_pump s1 1 "ON").2.1)).2.2
          ((control_pump ((control_pump s1 1 "ON").2.1) 1 "OFF").2.1)).1 = true
      case pos =>
        -- wait cancelled: both channels already disengaged
        simp only [hw, if_true]
        exact ⟨hpa2, by rw [hpb2, hpb, hp2], hva2, by rw [hvb2, hvb, hv2]⟩
      case neg =>
        have hw2 : (wait_loop cancelAt WAIT_BETWEEN_PUMPS
            (pump_hold_loop cancelAt 1 PUMP1_DURATION 0
              ((control_pump s1 1 "ON").2.1)).2.2
            ((control_pump ((control_pump s1 1 "ON").2.1) 1 "OFF").2.1)).1 = false := by
          revert hw
          cases (wait_loop cancelAt WAIT_BETWEEN_PUMPS
            (pump_hold_loop cancelAt 1 PUMP1_DURATION 0
              ((control_pump s1 1 "ON").2.1)).2.2
            ((control_pump ((control_pump s1 1 "ON").2.1) 1 "OFF").2.1)).1 <;> simp
        -- wait ran to completion
        simp only [hw2, Bool.false_eq_true, if_false]
        obtain ⟨hs3, ho3, hpb3, hvb3, hpa3, hva3⟩ :=
          cp2_on ((control_pump ((control_pump s1 1 "ON").2.1) 1 "OFF").2.1) ho2
        simp only [hs3, if_true]
        rcases pump_hold_loop_cases cancelAt 2 PUMP2_DURATION
            (wait_loop cancelAt WAIT_BETWEEN_PUMPS
              (pump_hold_loop cancelAt 1 PUMP1_DURATION 0
                ((control_pump s1 1 "ON").2.1)).2.2
              ((control_pump ((control_pump s1 1 "ON").2.1) 1 "OFF").2.1)).2.2
            ((control_pump
              ((control_pump ((control_pump s1 1 "ON").2.1) 1 "OFF").2.1)
              2 "ON").2.1) with ⟨hI2, hS2⟩ | ⟨hI2, hS2⟩
        · -- hold 2 ran to completion, explicit OFF
          simp only [hI2, hS2, Bool.false_eq_true, if_false]
          obtain ⟨_, _, hq1, hq2, hq3, hq4⟩ :=
            cp2_off ((control_pump
              ((control_pump ((control_pump s1 1 "ON").2.1) 1 "OFF").2.1)
              2 "ON").2.1) ho3
          exact ⟨by rw [hq3, hpa3, hpa2], hq1, by rw [hq4, hva3, hva2], hq2⟩
        · -- hold 2 cancelled: channel 2 forced OFF
          simp only [hI2, hS2, if_true]
          obtain ⟨_, _, hq1, hq2, hq3, hq4⟩ :=
            cp2_off ((control_pump
              ((control_pump ((control_pump s1 1 "ON").2.1) 1 "OFF").2.1)
              2 "ON").2.1) ho3
          exact ⟨by rw [hq3, hpa3, hpa2], hq1, by rw [hq4, hva3, hva2], hq2⟩
    · -- hold 1 cancelled: channel 1 forced OFF
      simp only [hI, hS, if_true]
      obtain ⟨_, _, hq1, hq2, hq3, hq4⟩ :=
        cp1_off ((control_pump s1 1 "ON").2.1) ho1
      exact ⟨hq1, by rw [hq3, hpb, hp2], hq2, by rw [hq4, hvb, hv2]⟩
  · -- degraded controller: the stage fails, nothing is engaged
    have hok2 : s1.gpio.gpio_ok = false := by
      revert hok
      cases s1.gpio.gpio_ok <;> simp
    unfold response_body
    rw [cp_gpio_down s1 1 "ON" hok2]
    exact ⟨hp1, hp2, hv1, hv2⟩

/-- Exception behaviour of one `control_pump` call on a live controller,
as caught by the method's `except` clause: no exception, an exception
raised by the first hardware write (no write took effect), or one raised by
the second (the first write took effect, the status update never ran). -/
inductive PumpFault where
  | noFault
  | failFirst
  | failSecond
deriving DecidableEq, Repr

/-- `control_pump_channel` with the `except` path modelled: on a fault the
call returns `success = False` and only the writes before the raising one
keep their effect; the status update, which follows the writes in the
source, is skipped. -/
def control_pump_channel_exc (f : PumpFault) (s : SysState) (ch : Int)
    (pump_pin valve_pin : Nat) (action : String) :
    CallResult × SysState × List HWWrite :=
  match f with
  | PumpFault.noFault => control_pump_channel s ch pump_pin valve_pin action
  | PumpFault.failFirst => (⟨false, "exception"⟩, s, [])
  | PumpFault.failSecond =>
    if py_upper action = "ON" then
      (⟨false, "exception"⟩, ⟨write_valve_pin s.gpio ch true, s.status⟩,
        [HWWrite.write valve_pin 1, HWWrite.sleepMs 100])
    else
      (⟨false, "exception"⟩, ⟨write_pump_pin s.gpio ch false, s.status⟩,
        [HWWrite.write pump_pin 0, HWWrite.sleepMs 100])

/-- `GPIOController.control_pump` with the `except` path modelled;
`control_pump` is its no-fault slice. -/
def control_pump_exc (f : PumpFault) (s : SysState) (pin_number : Int)
    (action : String) : CallResult × SysState × List HWWrite :=
  if s.gpio.gpio_ok = false then
    (⟨false, "GPIO not available"⟩, s, [])
  else if pin_number = 1 then
    control_pump_channel_exc f s 1 PUMP_RELAY_PIN SOLENOID_VALVE_PIN_1 action
  else if pin_number = 2 then
    control_pump_channel_exc f s 2 PUMP_RELAY_PIN_2 SOLENOID_VALVE_PIN_2 action
  else
    (⟨false, "Invalid pump number (must be 1 or 2)"⟩, s, [])

/-- Fault assignment for the at most four `control_pump` calls one run of
the response sequence performs: engaging and disengaging each channel.  A
channel's disengage fault applies to whichever OFF call runs — the
cancellation one or the normal one — since a single run performs at most
one of them. -/
structure FaultSchedule where
  pump1_on : PumpFault
  pump1_off : PumpFault
  pump2_on : PumpFault
  pump2_off : PumpFault
deriving DecidableEq, Repr

/-- The schedule on which every hardware write succeeds. -/
def noFaultSchedule : FaultSchedule :=
  ⟨PumpFault.noFault, PumpFault.noFault, PumpFault.noFault, PumpFault.noFault⟩

/-- `pump_hold_loop` over the exception-aware controller: the cancellation
OFF call carries the fault assigned to this channel's disengage. -/
def pump_hold_loop_exc (f : PumpFault) (cancelAt : Option Nat) (ch : Int) :
    Nat → Nat → SysState → Bool × SysState × Nat
  | 0, idx, s => (false, s, idx)
  | n + 1, idx, s =>
    if stop_event_is_set cancelAt idx then
      (true, (control_pump_exc f s ch "OFF").2.1, idx + 1)
    else
      pump_hold_loop_exc f cancelAt ch n (idx + 1) s

/-- The try-block of `_execute_snoring_response` over the exception-aware
controller. -/
def response_body_exc (fs : FaultSchedule) (cancelAt : Option Nat)
    (s1 : SysState) : SysState :=
  let p1 := control_pump_exc fs.pump1_on s1 1 "ON"
  if p1.1.success then
    let h1 := pump_hold_loop_exc fs.pump1_off cancelAt 1 PUMP1_DURATION 0 p1.2.1
    if h1.1 then h1.2.1
    else
      let off1 := control_pump_exc fs.pump1_off h1.2.1 1 "OFF"
      let w := wait_loop cancelAt WAIT_BETWEEN_PUMPS h1.2.2 off1.2.1
      if w.1 then w.2.1
      else
        let p2 := control_pump_exc fs.pump2_on w.2.1 2 "ON"
        if p2.1.success then
          let h2 := pump_hold_loop_exc fs.pump2_off cancelAt 2 PUMP2_DURATION
            w.2.2 p2.2.1
          if h2.1 then h2.2.1
          else (control_pump_exc fs.pump2_off h2.2.1 2 "OFF").2.1
        else p2.2.1
  else p1.2.1

/-- `_execute_snoring_response` over the exception-aware controller: mark
the sequence active, run the try-block, clear the flag in the `finally`
clause.  A `control_pump` fault is caught inside that method and surfaces
only as a falsy result, so the task's own `except` handler never runs for
it. -/
def execute_snoring_response_exc (fs : FaultSchedule) (cancelAt : Option Nat)
    (s0 : SysState) : SysState :=
  set_response_active
    (response_body_exc fs cancelAt (set_response_active s0 true)) false

/-- `control_pump` is the no-fault slice of the exception-aware controller. -/
theorem control_pump_exc_noFault (s : SysState) (n : Int) (a : String) :
    control_pump_exc PumpFault.noFault s n a = control_pump s n a := rfl

/-- The fault-free hold loop agrees with the exception-aware one. -/
theorem pump_hold_loop_exc_noFault (cancelAt : Option Nat) (ch : Int) :
    ∀ (n idx : Nat) (s : SysState),
      pump_hold_loop_exc PumpFault.noFault cancelAt ch n idx s =
        pump_hold_loop cancelAt ch n idx s := by
  intro n
  induction n with
  | zero =>
    intro idx s
    rfl
  | succ k ih =>
    intro idx s
    by_cases hc : stop_event_is_set cancelAt idx = true
    · simp [pump_hold_loop_exc, pump_hold_loop, hc, control_pump_exc_noFault]
    · have hc2 : stop_event_is_set cancelAt idx = false := by
        revert hc
        cases stop_event_is_set cancelAt idx <;> simp
      simp only [pump_hold_loop_exc, pump_hold_loop, hc2, Bool.false_eq_true,
        if_false]
      exact ih (idx + 1) s

/-- The fault-free try-block agrees with the exception-aware one. -/
theorem response_body_exc_noFault (cancelAt : Option Nat) (s1 : SysState) :
    response_body_exc noFaultSchedule cancelAt s1 = response_body cancelAt s1 := by
  simp only [response_body_exc, response_body, noFaultSchedule,
    control_pump_exc_noFault, pump_hold_loop_exc_noFault]

/-- The fault-free sequence agrees with the exception-aware one. -/
theorem execute_exc_noFault (cancelAt : Option Nat) (s0 : SysState) :
    execute_snoring_response_exc noFaultSchedule cancelAt s0 =
      execute_snoring_response cancelAt s0 := by
  unfold execute_snoring_response_exc execute_snoring_response
  rw [response_body_exc_noFault]

/-- C2 counterexample: a stage failure forces no channel OFF — the
stage-failure branch only logs and returns — so when the pump-1 engage
fails after its valve write took effect (the pump write raised), the task
exits with valve 1 still open, refuting the claim that every stage failure
forces both channels OFF before exit. -/
theorem stage_failure_leaves_valve_open :
    (execute_snoring_response_exc
        ⟨PumpFault.failSecond, PumpFault.noFault, PumpFault.noFault,
          PumpFault.noFault⟩
        none (boot_state true)).gpio.valve1 = true ∧
    ¬ actuators_off (execute_snoring_response_exc
        ⟨PumpFault.failSecond, PumpFault.noFault, PumpFault.noFault,
          PumpFault.noFault⟩
        none (boot_state true)) := by
  constructor
  · rfl
  · intro h
    exact absurd h.2.2.1 (by decide)

/-- C2 amended: the `finally` clause clears the sequence-active flag on
every exit path, whatever faults and cancellations occur; when every
hardware write succeeds, every exit path — cancellation during either hold
or the wait, stage failure, normal completion — leaves both channels fully
disengaged; but a stage failure forces no channel OFF, so an engage whose
valve write took effect before its pump write raised leaves that valve
open at exit. -/
theorem execute_snoring_response_exc_safe :
    (∀ (fs : FaultSchedule) (cancelAt : Option Nat) (s0 : SysState),
      (execute_snoring_response_exc fs cancelAt s0).status.snoring_response_active =
        false) ∧
    (∀ (cancelAt : Option Nat) (s0 : SysState), actuators_off s0 →
      actuators_off (execute_snoring_response_exc noFaultSchedule cancelAt s0)) ∧
    (execute_snoring_response_exc
        ⟨PumpFault.failSecond, PumpFault.noFault, PumpFault.noFault,
          PumpFault.noFault⟩
        none (boot_state true)).gpio.valve1 = true := by
  refine ⟨fun fs cancelAt s0 => rfl, ?_, rfl⟩
  intro cancelAt s0 h
  rw [execute_exc_noFault]
  exact response_body_safe cancelAt (set_response_active s0 true) h

/-- Witness for `execute_snoring_response_exc_safe`: a fault-free run from
the live boot state cancelled at the 10th stop-event check (inside the
first pump hold) exits with everything off. -/
theorem execute_snoring_response_exc_safe_witness :
    actuators_off
      (execute_snoring_response_exc noFaultSchedule (some 10) (boot_state true)) :=
  execute_snoring_response_exc_safe.2.1 (some 10) (boot_state true)
    ⟨rfl, rfl, rfl, rfl⟩

/-- Program counter of one detector thread running the trigger section of
`record_and_predict` on a qualifying positive detection: it is about to read
the status copy (`get_status()` under the status mutex), it holds the copied
`snoring_response_active` value and is about to skip or spawn, or it is done
(having spawned a sequence task or not). -/
inductive DetPC where
  | atCheck
  | atSpawn (saw_active : Bool)
  | pcDone (spawned : Bool)
deriving DecidableEq, Repr

/-- Shared state of the race model: the `snoring_response_active` flag held
by the status dictionary, the number of response-sequence tasks started,
the number of spawned tasks that have not yet executed their first statement
(which is what sets the flag), and the two detector threads. -/
structure RaceState where
  response_flag : Bool
  sequences_started : Nat
  pending_starts : Nat
  det1 : DetPC
  det2 : DetPC
deriving DecidableEq, Repr

/-- Atomic actions of the race model.  `check` is the mutex-protected
status read of `record_and_predict`; `resolve` is the skip-or-spawn branch
on the copied value; `seq_begin` is the first statement of the spawned
`_execute_snoring_response` task, `update_status(snoring_response_active=True)`. -/
inductive RaceAction where
  | check1
  | check2
  | resolve1
  | resolve2
  | seq_begin
deriving DecidableEq, Repr

/-- One atomic step of the race model; `none` when the action is not
enabled in the given state. -/
def race_step (s : RaceState) (a : RaceAction) : Option RaceState :=
  match a with
  | RaceAction.check1 =>
    match s.det1 with
    | DetPC.atCheck => some { s with det1 := DetPC.atSpawn s.response_flag }
    | _ => none
  | RaceAction.check2 =>
    match s.det2 with
    | DetPC.atCheck => some { s with det2 := DetPC.atSpawn s.response_flag }
    | _ => none
  | RaceAction.resolve1 =>
    match s.det1 with
    | DetPC.atSpawn true => some { s with det1 := DetPC.pcDone false }
    | DetPC.atSpawn false =>
      some { s with det1 := DetPC.pcDone true
                    sequences_started := s.sequences_started + 1
                    pending_starts := s.pending_starts + 1 }
    | _ => none
  | RaceAction.resolve2 =>
    match s.det2 with
    | DetPC.atSpawn true => some { s with det2 := DetPC.pcDone false }
    | DetPC.atSpawn false =>
      some { s with det2 := DetPC.pcDone true
                    sequences_started := s.sequences_started + 1
                    pending_starts := s.pending_starts + 1 }
    | _ => none
  | RaceAction.seq_begin =>
    match s.pending_starts with
    | 0 => none
    | n + 1 => some { s with response_flag := true, pending_starts := n }

/-- Run a schedule of atomic actions; `none` if any action is not enabled. -/
def race_run : RaceState → List RaceAction → Option RaceState
  | s, [] => some s
  | s, a :: rest =>
    match race_step s a with
    | none => none
    | some s2 => race_run s2 rest

/-- Initial state: flag clear, no sequence started, two qualifying
detections each about to test the flag. -/
def race_init : RaceState :=
  ⟨false, 0, 0, DetPC.atCheck, DetPC.atCheck⟩

/-- The claim as stated: under every interleaving of two concurrent
qualifying detections, at most one response sequence is started. -/
def at_most_one_sequence_claim : Prop :=
  ∀ (sched : List RaceAction) (s : RaceState),
    race_run race_init sched = some s → s.sequences_started ≤ 1

/-- C1 counterexample: the flag check and the flag set are not one atomic
check-and-set — the set happens in the spawned task — so the interleaving
in which both detections read the flag before either spawned task runs
starts two response sequences. -/
theorem race_two_sequences :
    ¬ at_most_one_sequence_claim := by
  intro hclaim
  have h2 := hclaim
    [RaceAction.check1, RaceAction.check2, RaceAction.resolve1,
      RaceAction.resolve2]
    ⟨false, 2, 2, DetPC.pcDone true, DetPC.pcDone true⟩ (by decide)
  exact absurd h2 (by decide)

/-- C1 amended: the detection skips — resolving to done without starting a
sequence — whenever the status copy it read shows the flag set, and a fully
sequential pair of detections starts only one sequence; but because the
flag is set by the spawned task rather than atomically with the check, the
interleaving in which both detections check first starts two sequences. -/
theorem race_skip_when_active :
    (∀ (s s2 : RaceState), s.det1 = DetPC.atSpawn true →
      race_step s RaceAction.resolve1 = some s2 →
      s2.sequences_started = s.sequences_started ∧ s2.det1 = DetPC.pcDone false) ∧
    (∀ (s s2 : RaceState), s.det2 = DetPC.atSpawn true →
      race_step s RaceAction.resolve2 = some s2 →
      s2.sequences_started = s.sequences_started ∧ s2.det2 = DetPC.pcDone false) ∧
    (race_run race_init
        [RaceAction.check1, RaceAction.resolve1, RaceAction.seq_begin,
          RaceAction.check2, RaceAction.resolve2] =
      some ⟨true, 1, 0, DetPC.pcDone true, DetPC.pcDone false⟩) ∧
    (race_run race_init
        [RaceAction.check1, RaceAction.check2, RaceAction.resolve1,
          RaceAction.resolve2] =
      some ⟨false, 2, 2, DetPC.pcDone true, DetPC.pcDone true⟩) := by
  refine ⟨?_, ?_, by decide, by decide⟩
  · intro s s2 hpc hstep
    simp [race_step, hpc] at hstep
    rw [← hstep]
    exact ⟨rfl, rfl⟩
  · intro s s2 hpc hstep
    simp [race_step, hpc] at hstep
    rw [← hstep]
    exact ⟨rfl, rfl⟩

/-- Witness for `race_skip_when_active`: a detector that saw the flag set
resolves by skipping, leaving the sequence count unchanged. -/
theorem race_skip_when_active_witness :
    (⟨true, 1, 0, DetPC.pcDone false, DetPC.atCheck⟩ : RaceState).sequences_started =
        (⟨true, 1, 0, DetPC.atSpawn true, DetPC.atCheck⟩ : RaceState).sequences_started ∧
      (⟨true, 1, 0, DetPC.pcDone false, DetPC.atCheck⟩ : RaceState).det1 =
        DetPC.pcDone false :=
  race_skip_when_active.1
    ⟨true, 1, 0, DetPC.atSpawn true, DetPC.atCheck⟩
    ⟨true, 1, 0, DetPC.pcDone false, DetPC.atCheck⟩
    rfl (by decide)
